import Mathlib

/-!
Shallow embedding of the SparkMonitor correlation engine
(src/js/SparkMonitor.js) and proofs about its event handlers.

The engine state is the mutable fields of the `SparkMonitor` class; each
JS method becomes a pure function from state (plus the listener
environment it consults) to a new state together with a list of
observable effects (console output, display teardown, monitor creation,
event forwarding).  JS exceptions (TypeError on dereferencing
null/undefined) are modelled with `Except`.
-/

namespace SparkVerify

/-! ### Association-list maps (JS object dictionaries) -/

/-- Lookup in a string-keyed association list: first matching key wins.
Models `obj[key]`, with `none` for `undefined`. -/
def lookupKey {α : Type} (l : List (String × α)) (k : String) : Option α :=
  match l with
  | [] => none
  | (k1, v) :: t => if k1 = k then some v else lookupKey t k

/-- Remove every entry with the given key. Models `delete obj[key]`. -/
def eraseKey {α : Type} (l : List (String × α)) (k : String) : List (String × α) :=
  l.filter (fun p => p.1 ≠ k)

/-- Insert or overwrite the entry for a key. Models `obj[key] = v`. -/
def setKey {α : Type} (l : List (String × α)) (k : String) (v : α) : List (String × α) :=
  (k, v) :: eraseKey l k

/-- The key multiset of an association list. -/
def mapKeys {α : Type} (l : List (String × α)) : List String :=
  l.map Prod.fst

/-! ### Data model -/

/-- Global display mode of the engine (`this.display_mode`). -/
inductive DisplayMode
  | shown
  | hidden
deriving DecidableEq, Repr

/-- Modelled from the spec: `CellMonitor.js` is not under src/, so the
per-command monitor is reduced to its identity (a token distinguishing
distinct monitor instances) and its display-visible flag, the two pieces
the engine observes (`displayVisible` is read by `hideAll`,
`removeDisplay` tears the display down). -/
structure CellMonitor where
  token : Nat
  displayVisible : Bool
deriving DecidableEq, Repr

/-- A JS runtime exception escaping a handler. -/
inductive JsError
  | typeError (msg : String)
deriving DecidableEq, Repr

/-- Observable effects of a handler: console output, display teardown,
monitor creation and the events forwarded to CellMonitor instances
(identified by token). -/
inductive Effect
  | log (msg : String)
  | logError (msg : String)
  | logWarn (msg : String)
  | removeDisplay (token : Nat)
  | createMonitor (id : String) (token : Nat)
  | forwardJobStart (token : Nat) (jobId : Nat)
  | forwardJobEnd (token : Nat) (jobId : Nat)
  | forwardStageSubmitted (token : Nat) (stageId : Nat)
  | forwardStageCompleted (token : Nat) (stageId : Nat)
  | forwardTaskStart (token : Nat) (stageId : Nat)
  | forwardTaskEnd (token : Nat) (stageId : Nat)
  | forwardExecutorAdded (token : Nat)
  | forwardExecutorRemoved (token : Nat)
deriving DecidableEq, Repr

/-- A notebook cell as the engine sees it: just its id (line 192 reads
`cell.id`, line 193 may assign a fresh uuid to it). -/
structure Cell where
  id : String
deriving DecidableEq, Repr

/-- The CurrentCell listener and uuid source consulted by the handlers:
`getActiveCell()` (null modelled as `none`), `getCellReexecuted()`,
`getNumCellsExecuted()`, and the uuid `uuidv4()` would return. -/
structure ListenerEnv where
  activeCell : Option Cell
  cellReexecuted : Bool
  numCellsExecuted : Nat
  freshId : String
deriving DecidableEq, Repr

/-- The mutable fields of the SparkMonitor class (constructor,
lines 18-62).  `cellmonitors` and `data` are JS object dictionaries,
modelled as association lists; `nextToken` allocates identities for
`new CellMonitor(...)` instances.  `data` maps the composite string key
to the stored `cell_id`. -/
structure SparkState where
  cellmonitors : List (String × CellMonitor)
  nextToken : Nat
  data : List (String × String)
  appName : String
  appId : String
  appAttemptId : String
  app : String
  totalCores : Int
  numExecutors : Int
  display_mode : DisplayMode
  cellExecCountSinceSparkJobStart : Nat
deriving DecidableEq, Repr

/-- Engine state right after the constructor runs (lines 23-48;
`appAttemptId` is not initialized in JS until application start, modelled
as the empty string — it is only read after being set). -/
def initialState : SparkState :=
  { cellmonitors := []
    nextToken := 0
    data := []
    appName := "NULL"
    appId := "NULL"
    appAttemptId := ""
    app := "NULL"
    totalCores := 0
    numExecutors := 0
    display_mode := DisplayMode.shown
    cellExecCountSinceSparkJobStart := 0 }

/-- Composite JobRecord key (line 212). -/
def jobKey (app : String) (jobId : Nat) : String :=
  "app" ++ app ++ "job" ++ toString jobId

/-- Composite StageRecord key (lines 247, 260, 272, 284). -/
def stageKey (app : String) (stageId : Nat) : String :=
  "app" ++ app ++ "stage" ++ toString stageId

/-! ### Monitor lifecycle (lines 77-114) -/

/-- `getCellMonitor(id)` (lines 77-79): dictionary lookup, `undefined`
for a missing id. -/
def getCellMonitor (s : SparkState) (id : String) : Option CellMonitor :=
  lookupKey s.cellmonitors id

/-- `stopCellMonitor(id)` (lines 108-114): if a monitor exists, tear
down its display and delete the entry; otherwise do nothing. -/
def stopCellMonitor (s : SparkState) (id : String) : SparkState × List Effect :=
  match getCellMonitor s id with
  | some m =>
    ({ s with cellmonitors := eraseKey s.cellmonitors id }, [Effect.removeDisplay m.token])
  | none => (s, [])

/-- `cellExecutedAgain(cell)` (lines 100-102). -/
def cellExecutedAgain (s : SparkState) (cell : Cell) : SparkState × List Effect :=
  stopCellMonitor s cell.id

/-- Lines 87-91 of `startCellMonitor`: if a monitor exists its display
is removed; otherwise, on a re-executed cell, `cellExecutedAgain` runs
(a no-op on the monitor map, since no monitor exists for the id). -/
def startCellMonitorPre (env : ListenerEnv) (s : SparkState) (cell : Cell) :
    SparkState × List Effect :=
  match getCellMonitor s cell.id with
  | some m => (s, [Effect.removeDisplay m.token])
  | none => if env.cellReexecuted then cellExecutedAgain s cell else (s, [])

/-- `startCellMonitor(cell)` (lines 86-94): after the pre-step, a fresh
CellMonitor is stored under the cell id and returned. -/
def startCellMonitor (env : ListenerEnv) (s : SparkState) (cell : Cell) :
    SparkState × CellMonitor × List Effect :=
  let p := startCellMonitorPre env s cell
  let m : CellMonitor := { token := p.1.nextToken, displayVisible := true }
  ({ p.1 with
      cellmonitors := setKey p.1.cellmonitors cell.id m
      nextToken := p.1.nextToken + 1 },
    m, p.2 ++ [Effect.createMonitor cell.id m.token])

/-- `showAll()` (lines 124-126): only flips the mode flag. -/
def showAll (s : SparkState) : SparkState :=
  { s with display_mode := DisplayMode.shown }

/-- `hideAll()` (lines 129-139): tears down the display of every monitor
currently marked visible, then sets the mode to hidden.  (That
`removeDisplay` clears the displayVisible flag of the monitor is
modelled from the spec, the flag living in the absent CellMonitor.js.) -/
def hideAll (s : SparkState) : SparkState × List Effect :=
  let effs := (s.cellmonitors.filter (fun p => p.2.displayVisible)).map
    (fun p => Effect.removeDisplay p.2.token)
  ({ s with
      cellmonitors := s.cellmonitors.map
        (fun p => (p.1, { p.2 with displayVisible := false }))
      display_mode := DisplayMode.hidden },
    effs)

/-- `toggleAll()` (lines 118-121). -/
def toggleAll (s : SparkState) : SparkState × List Effect :=
  if s.display_mode = DisplayMode.hidden then (showAll s, [])
  else if s.display_mode = DisplayMode.shown then hideAll s
  else (s, [])

/-- The cell-removed hook installed by the constructor (lines 51-59). -/
def onCellRemoved (s : SparkState) (id : String) : SparkState × List Effect :=
  match getCellMonitor s id with
  | some m =>
    ((stopCellMonitor s id).1, Effect.removeDisplay m.token :: (stopCellMonitor s id).2)
  | none => (s, [])

/-! ### Event handlers (lines 190-338) -/

/-- Payload of a sparkJobStart event (fields read at lines 212, 216, 217). -/
structure JobStartData where
  jobId : Nat
  totalCores : Int
  numExecutors : Int
deriving DecidableEq, Repr

/-- Payload of a sparkApplicationStart event (fields read at lines 306-308). -/
structure AppStartData where
  appId : String
  appName : String
  appAttemptId : String
deriving DecidableEq, Repr

/-- Lines 202-205 of `onSparkJobStart`: the new-execution check against
the watermark, and the watermark update when it fires. -/
def jobStartWatermark (env : ListenerEnv) (s : SparkState) : Bool × SparkState :=
  let newExecution : Bool := decide (env.numCellsExecuted > s.cellExecCountSinceSparkJobStart)
  (newExecution,
   if newExecution then { s with cellExecCountSinceSparkJobStart := env.numCellsExecuted }
   else s)

/-- Lines 207-210 of `onSparkJobStart`: look the monitor up and, when
the display mode is shown and (no monitor exists or this is a new
execution), start a fresh one. -/
def jobStartMonitor (env : ListenerEnv) (s : SparkState) (cell : Cell) (newExecution : Bool) :
    SparkState × Option CellMonitor × List Effect :=
  if s.display_mode = DisplayMode.shown ∧
      (getCellMonitor s cell.id = none ∨ newExecution = true) then
    ((startCellMonitor env s cell).1, some (startCellMonitor env s cell).2.1,
      (startCellMonitor env s cell).2.2)
  else (s, getCellMonitor s cell.id, [])

/-- Lines 212-217 of `onSparkJobStart`: record the JobRecord entry and
overwrite totalCores/numExecutors from the event. -/
def jobStartBookkeeping (s : SparkState) (d : JobStartData) (cellId : String) : SparkState :=
  { s with
      data := setKey s.data (jobKey s.app d.jobId) cellId
      totalCores := d.totalCores
      numExecutors := d.numExecutors }

/-- `onSparkJobStart(data)` (lines 190-220).  Line 192 reads `cell.id`
BEFORE the null guard at line 195, so a null active cell raises a
TypeError; with a non-null cell that guard is unreachable.  An empty
cell id is replaced with a fresh uuid (line 193). -/
def onSparkJobStart (env : ListenerEnv) (s : SparkState) (d : JobStartData) :
    Except JsError (SparkState × List Effect) :=
  match env.activeCell with
  | none => Except.error (JsError.typeError "Cannot read properties of null (reading id)")
  | some c0 =>
    let cell : Cell := if c0.id = "" then { id := env.freshId } else c0
    let effs0 : List Effect := [Effect.log ("SparkMonitor: Job Start at cell: " ++ cell.id)]
    let w := jobStartWatermark env s
    let r2 := jobStartMonitor env w.2 cell w.1
    let s3 := jobStartBookkeeping r2.1 d cell.id
    let effs2 : List Effect :=
      match r2.2.1 with
      | some m => [Effect.forwardJobStart m.token d.jobId]
      | none => []
    Except.ok (s3, effs0 ++ r2.2.2 ++ effs2)

/-- `onSparkJobEnd(data)` (lines 226-233).  Line 227 reads `.cell_id`
off the JobRecord entry before checking it exists: a missing entry
raises a TypeError.  With an entry present, a truthy (non-empty) cell id
forwards to the monitor when one exists; a falsy one logs an error. -/
def onSparkJobEnd (s : SparkState) (jobId : Nat) :
    Except JsError (SparkState × List Effect) :=
  match lookupKey s.data (jobKey s.app jobId) with
  | none =>
    Except.error (JsError.typeError "Cannot read properties of undefined (reading cell_id)")
  | some cid =>
    if cid = "" then
      Except.ok (s, [Effect.logError "SparkMonitor:ERROR no cellID for job"])
    else
      let effs : List Effect := [Effect.log ("SparkMonitor: Job End at cell: " ++ cid)]
      match getCellMonitor s cid with
      | some m => Except.ok (s, effs ++ [Effect.forwardJobEnd m.token jobId])
      | none => Except.ok (s, effs)

/-- `onSparkStageSubmitted(data)` (lines 239-252): the null guard here
comes before any dereference, so no exception is possible. -/
def onSparkStageSubmitted (env : ListenerEnv) (s : SparkState) (stageId : Nat) :
    SparkState × List Effect :=
  let effs0 : List Effect := [Effect.log "SparkMonitor:Stage Submitted"]
  match env.activeCell with
  | none => (s, effs0 ++ [Effect.logError "SparkMonitor: Stage started with no running cell."])
  | some cell =>
    let s1 : SparkState := { s with data := setKey s.data (stageKey s.app stageId) cell.id }
    (s1, effs0 ++
      (match getCellMonitor s1 cell.id with
       | some m => [Effect.forwardStageSubmitted m.token stageId]
       | none => []))

/-- `onSparkStageCompleted(data)` (lines 258-265): like `onSparkJobEnd`,
line 260 dereferences a possibly-missing StageRecord entry and raises a
TypeError when the stage is unknown.  (The console.log at line 259
precedes the throw in JS; effects emitted before a throw are dropped by
the model, no claim depends on them.) -/
def onSparkStageCompleted (s : SparkState) (stageId : Nat) :
    Except JsError (SparkState × List Effect) :=
  match lookupKey s.data (stageKey s.app stageId) with
  | none =>
    Except.error (JsError.typeError "Cannot read properties of undefined (reading cell_id)")
  | some cid =>
    if cid = "" then
      Except.ok (s, [Effect.log "SparkMonitor:Stage Completed",
        Effect.logError "SparkMonitor:ERROR no cellId for completed stage"])
    else
      match getCellMonitor s cid with
      | some m => Except.ok (s, [Effect.log "SparkMonitor:Stage Completed",
          Effect.forwardStageCompleted m.token stageId])
      | none => Except.ok (s, [Effect.log "SparkMonitor:Stage Completed"])

/-- `onSparkTaskStart(data)` (lines 271-277): same missing-entry
TypeError as `onSparkStageCompleted`. -/
def onSparkTaskStart (s : SparkState) (stageId : Nat) :
    Except JsError (SparkState × List Effect) :=
  match lookupKey s.data (stageKey s.app stageId) with
  | none =>
    Except.error (JsError.typeError "Cannot read properties of undefined (reading cell_id)")
  | some cid =>
    if cid = "" then
      Except.ok (s, [Effect.logError "SparkMonitor:ERROR no cellID for task start"])
    else
      match getCellMonitor s cid with
      | some m => Except.ok (s, [Effect.forwardTaskStart m.token stageId])
      | none => Except.ok (s, [])

/-- `onSparkTaskEnd(data)` (lines 283-289): same missing-entry TypeError. -/
def onSparkTaskEnd (s : SparkState) (stageId : Nat) :
    Except JsError (SparkState × List Effect) :=
  match lookupKey s.data (stageKey s.app stageId) with
  | none =>
    Except.error (JsError.typeError "Cannot read properties of undefined (reading cell_id)")
  | some cid =>
    if cid = "" then
      Except.ok (s, [Effect.logError "SparkMonitor:ERROR no cellID for task end"])
    else
      match getCellMonitor s cid with
      | some m => Except.ok (s, [Effect.forwardTaskEnd m.token stageId])
      | none => Except.ok (s, [])

/-- `onSparkApplicationStart(data)` (lines 305-310): sets the app
identifiers and recomputes the composite instance key. -/
def onSparkApplicationStart (s : SparkState) (d : AppStartData) : SparkState :=
  { s with
      appId := d.appId
      appName := d.appName
      appAttemptId := d.appAttemptId
      app := d.appId ++ "_" ++ d.appAttemptId }

/-- `onSparkApplicationEnd(data)` (lines 296-299): log only. -/
def onSparkApplicationEnd : List Effect :=
  [Effect.log "SparkMonitor: Spark App ended"]

/-- Best-effort forwarding shared by the executor handlers (lines
319-323 and 333-337): forward to the active cell monitor when the
active cell and its monitor both exist, otherwise do nothing. -/
def executorForward (env : ListenerEnv) (s : SparkState) (mk : Nat → Effect) : List Effect :=
  match env.activeCell with
  | some cell =>
    match getCellMonitor s cell.id with
    | some m => [mk m.token]
    | none => []
  | none => []

/-- `onSparkExecutorAdded(data)` (lines 316-324): unconditional
totalCores overwrite and numExecutors increment, then best-effort
forwarding to the active cell monitor. -/
def onSparkExecutorAdded (env : ListenerEnv) (s : SparkState) (totalCores : Int) :
    SparkState × List Effect :=
  let s1 : SparkState := { s with totalCores := totalCores, numExecutors := s.numExecutors + 1 }
  (s1, executorForward env s1 Effect.forwardExecutorAdded)

/-- `onSparkExecutorRemoved(data)` (lines 330-338): unconditional
totalCores overwrite and numExecutors decrement, then best-effort
forwarding to the active cell monitor. -/
def onSparkExecutorRemoved (env : ListenerEnv) (s : SparkState) (totalCores : Int) :
    SparkState × List Effect :=
  let s1 : SparkState := { s with totalCores := totalCores, numExecutors := s.numExecutors - 1 }
  (s1, executorForward env s1 Effect.forwardExecutorRemoved)

/-! ### Message dispatch (lines 345-389) -/

/-- The decoded inner payload of a fromscala message (the JSON parsed at
line 353, discriminated by its msgtype at line 354). The `unknownTag`
variant covers the default branch (line 385: ignored). -/
inductive SparkMsg
  | sparkJobStart (d : JobStartData)
  | sparkJobEnd (jobId : Nat)
  | sparkStageSubmitted (stageId : Nat)
  | sparkStageCompleted (stageId : Nat)
  | sparkTaskStart (stageId : Nat)
  | sparkTaskEnd (stageId : Nat)
  | sparkApplicationStart (d : AppStartData)
  | sparkApplicationEnd
  | sparkExecutorAdded (totalCores : Int)
  | sparkExecutorRemoved (totalCores : Int)
  | unknownTag (tag : String)
deriving DecidableEq, Repr

/-- The comm message envelope: `msg.content.data.msgtype` (absent
modelled as `none`, falsy also when empty) and the decoded payload,
consulted only when the outer msgtype is "fromscala". -/
structure CommMsg where
  msgtype : Option String
  payload : SparkMsg
deriving DecidableEq, Repr

/-- `handleMessage(msg)` (lines 345-389): everything is dropped while
the display mode is hidden (line 346); a falsy outer msgtype logs a
warning; a fromscala envelope dispatches on the inner msgtype. -/
def handleMessage (env : ListenerEnv) (s : SparkState) (msg : CommMsg) :
    Except JsError (SparkState × List Effect) :=
  if s.display_mode = DisplayMode.hidden then Except.ok (s, [])
  else
    let warnEffs : List Effect :=
      match msg.msgtype with
      | none => [Effect.logWarn "SparkMonitor: Unknown message"]
      | some t => if t = "" then [Effect.logWarn "SparkMonitor: Unknown message"] else []
    if msg.msgtype = some "fromscala" then
      let prepend : SparkState × List Effect → SparkState × List Effect :=
        fun r => (r.1, warnEffs ++ r.2)
      match msg.payload with
      | SparkMsg.sparkJobStart d => (onSparkJobStart env s d).map prepend
      | SparkMsg.sparkJobEnd jobId => (onSparkJobEnd s jobId).map prepend
      | SparkMsg.sparkStageSubmitted stageId =>
          Except.ok (prepend (onSparkStageSubmitted env s stageId))
      | SparkMsg.sparkStageCompleted stageId => (onSparkStageCompleted s stageId).map prepend
      | SparkMsg.sparkTaskStart stageId => (onSparkTaskStart s stageId).map prepend
      | SparkMsg.sparkTaskEnd stageId => (onSparkTaskEnd s stageId).map prepend
      | SparkMsg.sparkApplicationStart d =>
          Except.ok (prepend (onSparkApplicationStart s d, []))
      | SparkMsg.sparkApplicationEnd => Except.ok (prepend (s, onSparkApplicationEnd))
      | SparkMsg.sparkExecutorAdded totalCores =>
          Except.ok (prepend (onSparkExecutorAdded env s totalCores))
      | SparkMsg.sparkExecutorRemoved totalCores =>
          Except.ok (prepend (onSparkExecutorRemoved env s totalCores))
      | SparkMsg.unknownTag _ => Except.ok (prepend (s, []))
    else Except.ok (s, warnEffs)

/-! ### The engine as a step machine -/

/-- One external stimulus to the engine: a comm message (with the
listener state at delivery time), one of the three UI visibility hooks,
or the cell-removed hook. -/
inductive EngineEvent
  | message (env : ListenerEnv) (msg : CommMsg)
  | uiToggleAll
  | uiShowAll
  | uiHideAll
  | cellRemoved (id : String)
deriving DecidableEq, Repr

/-- One engine step with its effects, `Except` carrying an escaped
exception. -/
def stepE (ev : EngineEvent) (s : SparkState) : Except JsError (SparkState × List Effect) :=
  match ev with
  | EngineEvent.message env msg => handleMessage env s msg
  | EngineEvent.uiToggleAll => Except.ok (toggleAll s)
  | EngineEvent.uiShowAll => Except.ok (showAll s, [])
  | EngineEvent.uiHideAll => Except.ok (hideAll s)
  | EngineEvent.cellRemoved id => Except.ok (onCellRemoved s id)

/-- The state after a step.  Every throwing handler throws before its
first state write (lines 192, 227, 260, 272, 284 each precede any
mutation), so an exception leaves the state as it was. -/
def stepState (ev : EngineEvent) (s : SparkState) : SparkState :=
  match stepE ev s with
  | Except.ok r => r.1
  | Except.error _ => s

/-- The state reached by a sequence of stimuli, first one first. -/
def runState : List EngineEvent → SparkState → SparkState
  | [], s => s
  | ev :: t, s => runState t (stepState ev s)

/-! ### Concrete fixtures used by witnesses and counterexamples -/

/-- A listener with one active cell "c1", no re-execution. -/
def envC1 : ListenerEnv :=
  { activeCell := some { id := "c1" }
    cellReexecuted := false
    numCellsExecuted := 1
    freshId := "uuid-1" }

/-- A listener whose active-cell lookup returns null. -/
def envNoCell : ListenerEnv :=
  { activeCell := none
    cellReexecuted := false
    numCellsExecuted := 1
    freshId := "uuid-1" }

/-- A job-start payload with jobId 0. -/
def jobData0 : JobStartData :=
  { jobId := 0, totalCores := 4, numExecutors := 2 }

/-- A state holding one monitor for cell "c1" (token 5). -/
def oneMonitorState : SparkState :=
  { initialState with
      cellmonitors := [("c1", { token := 5, displayVisible := true })]
      nextToken := 6 }

/-- The fresh engine state with the display mode set to hidden. -/
def hiddenState : SparkState :=
  { initialState with display_mode := DisplayMode.hidden }

/-- A fromscala envelope carrying a job start with jobId 0, 16 cores. -/
def jobStartMsg16 : CommMsg :=
  { msgtype := some "fromscala"
    payload := SparkMsg.sparkJobStart { jobId := 0, totalCores := 16, numExecutors := 1 } }

/-- Scenario A application-start payload. -/
def appData1 : AppStartData :=
  { appId := "app1", appName := "app", appAttemptId := "1" }

/-- The engine right after the Scenario A application start. -/
def scenarioAState : SparkState :=
  onSparkApplicationStart initialState appData1

/-- State component of an ok handler result (used to chain fixture
runs; the error fallback is never reached in the fixtures). -/
def okState (r : Except JsError (SparkState × List Effect)) : SparkState :=
  match r with
  | Except.ok p => p.1
  | Except.error _ => initialState

/-- Effect component of an ok handler result. -/
def okEffects (r : Except JsError (SparkState × List Effect)) : List Effect :=
  match r with
  | Except.ok p => p.2
  | Except.error _ => []

/-- The listener after the cell was executed a second time. -/
def envC1run2 : ListenerEnv :=
  { envC1 with numCellsExecuted := 2 }

/-- A job-start payload with jobId 1. -/
def jobData1 : JobStartData :=
  { jobId := 1, totalCores := 4, numExecutors := 2 }

/-- Scenario A state after the job start for jobId 0. -/
def cexS1 : SparkState :=
  okState (onSparkJobStart envC1 scenarioAState jobData0)

/-- cexS1 after a re-run job start for jobId 1 (the second execution of
the cell replaces the monitor). -/
def cexS2 : SparkState :=
  okState (onSparkJobStart envC1run2 cexS1 jobData1)

/-- The job-start payload carried by `jobStartMsg16`. -/
def jobData16 : JobStartData :=
  { jobId := 0, totalCores := 16, numExecutors := 1 }

/-- The conclusion of claim C4 at given inputs: the job start records
the JobRecord entry for the resolved cell id, some monitor m of that id
receives the job-start forward, and the following job end for the same
jobId forwards to the same m while returning the state untouched (so in
particular the JobRecord entry is not deleted). -/
def jobStartEndCoherent (env : ListenerEnv) (s : SparkState) (d : JobStartData)
    (c0 : Cell) : Prop :=
  ∃ s1 effs m,
    onSparkJobStart env s d = Except.ok (s1, effs) ∧
    lookupKey s1.data (jobKey s.app d.jobId) =
      some (if c0.id = "" then env.freshId else c0.id) ∧
    getCellMonitor s1 (if c0.id = "" then env.freshId else c0.id) = some m ∧
    Effect.forwardJobStart m.token d.jobId ∈ effs ∧
    onSparkJobEnd s1 d.jobId =
      Except.ok (s1,
        [Effect.log ("SparkMonitor: Job End at cell: " ++
          (if c0.id = "" then env.freshId else c0.id)),
         Effect.forwardJobEnd m.token d.jobId])

/-- The behavior claim C5 amends to, at given inputs: the arriving
event is dropped whole by handleMessage, while onSparkJobStart itself,
run while hidden, does the bookkeeping (JobRecord entry, totalCores,
numExecutors), leaves the monitor map untouched and creates no
monitor. -/
def hiddenJobStartBehavior (env : ListenerEnv) (s : SparkState) (msg : CommMsg)
    (d : JobStartData) (c0 : Cell) : Prop :=
  handleMessage env s msg = Except.ok (s, []) ∧
  ∃ s2 effs,
    onSparkJobStart env s d = Except.ok (s2, effs) ∧
    s2.cellmonitors = s.cellmonitors ∧
    s2.totalCores = d.totalCores ∧
    s2.numExecutors = d.numExecutors ∧
    lookupKey s2.data (jobKey s.app d.jobId) =
      some (if c0.id = "" then env.freshId else c0.id) ∧
    ∀ i t, Effect.createMonitor i t ∉ effs

/-- The conclusion of the last part of claim C6 at given inputs: a job
start processed after showAll (no monitor yet for the resolved cell id)
creates the monitor that is then found under that id. -/
def jobStartAfterShowAllCreates (env : ListenerEnv) (s : SparkState) (d : JobStartData)
    (c0 : Cell) : Prop :=
  ∃ s2 effs m,
    onSparkJobStart env (showAll s) d = Except.ok (s2, effs) ∧
    getCellMonitor s2 (if c0.id = "" then env.freshId else c0.id) = some m ∧
    Effect.createMonitor (if c0.id = "" then env.freshId else c0.id) m.token ∈ effs

/-! ### The at-most-one-monitor invariant over reachable states -/

/-- Number of monitor entries stored under an id. -/
def liveMonitorCount (s : SparkState) (id : String) : Nat :=
  (s.cellmonitors.filter (fun p => p.1 = id)).length

theorem lookupKey_setKey_self {α : Type} (l : List (String × α)) (k : String) (v : α) :
    lookupKey (setKey l k v) k = some v := by
  simp [setKey, lookupKey]

theorem lookupKey_eraseKey_self {α : Type} (l : List (String × α)) (k : String) :
    lookupKey (eraseKey l k) k = none := by
  induction l with
  | nil => simp [eraseKey, lookupKey]
  | cons p t ih =>
    by_cases h : p.1 = k
    · simpa [eraseKey, h] using ih
    · simpa [eraseKey, lookupKey, h] using ih

theorem lookupKey_eraseKey_ne {α : Type} (l : List (String × α)) (k k2 : String)
    (h : k2 ≠ k) : lookupKey (eraseKey l k) k2 = lookupKey l k2 := by
  induction l with
  | nil => simp [eraseKey]
  | cons p t ih =>
    by_cases hp : p.1 = k
    · have hpk2 : p.1 ≠ k2 := by rw [hp]; exact fun hk => h hk.symm
      rw [show eraseKey (p :: t) k = eraseKey t k by simp [eraseKey, List.filter_cons, hp]]
      rw [ih]
      simp [lookupKey, hpk2]
    · rw [show eraseKey (p :: t) k = p :: eraseKey t k by
        simp [eraseKey, List.filter_cons, hp]]
      by_cases hk2 : p.1 = k2
      · simp [lookupKey, hk2]
      · simp [lookupKey, hk2, ih]

theorem lookupKey_setKey_ne {α : Type} (l : List (String × α)) (k k2 : String) (v : α)
    (h : k2 ≠ k) : lookupKey (setKey l k v) k2 = lookupKey l k2 := by
  have : k ≠ k2 := fun hk => h hk.symm
  simp [setKey, lookupKey, this, lookupKey_eraseKey_ne l k k2 h]

theorem mapKeys_eraseKey_sublist {α : Type} (l : List (String × α)) (k : String) :
    (mapKeys (eraseKey l k)).Sublist (mapKeys l) :=
  (List.filter_sublist l).map Prod.fst

theorem not_mem_mapKeys_eraseKey {α : Type} (l : List (String × α)) (k : String) :
    k ∉ mapKeys (eraseKey l k) := by
  intro hmem
  rcases List.mem_map.mp hmem with ⟨p, hp, hk⟩
  have := List.of_mem_filter hp
  simp at this
  exact this hk

theorem nodup_mapKeys_eraseKey {α : Type} (l : List (String × α))
    (h : (mapKeys l).Nodup) (k : String) : (mapKeys (eraseKey l k)).Nodup :=
  h.sublist (mapKeys_eraseKey_sublist l k)

theorem nodup_mapKeys_setKey {α : Type} (l : List (String × α))
    (h : (mapKeys l).Nodup) (k : String) (v : α) : (mapKeys (setKey l k v)).Nodup := by
  simp only [setKey, mapKeys, List.map_cons, List.nodup_cons]
  exact ⟨not_mem_mapKeys_eraseKey l k, nodup_mapKeys_eraseKey l h k⟩

/-! ### Lemmas about the monitor lifecycle -/

theorem startCellMonitorPre_state (env : ListenerEnv) (s : SparkState) (cell : Cell) :
    (startCellMonitorPre env s cell).1 = s := by
  unfold startCellMonitorPre
  cases h : getCellMonitor s cell.id with
  | some m => rfl
  | none =>
    by_cases hre : env.cellReexecuted
    · simp [hre, cellExecutedAgain, stopCellMonitor, h]
    · simp [hre]

theorem startCellMonitor_state (env : ListenerEnv) (s : SparkState) (cell : Cell) :
    (startCellMonitor env s cell).1 =
      { s with
          cellmonitors := setKey s.cellmonitors cell.id
            { token := s.nextToken, displayVisible := true }
          nextToken := s.nextToken + 1 } := by
  simp only [startCellMonitor]
  rw [startCellMonitorPre_state]

theorem startCellMonitor_monitor (env : ListenerEnv) (s : SparkState) (cell : Cell) :
    (startCellMonitor env s cell).2.1 = { token := s.nextToken, displayVisible := true } := by
  simp only [startCellMonitor]
  rw [startCellMonitorPre_state]

theorem getCellMonitor_startCellMonitor (env : ListenerEnv) (s : SparkState) (cell : Cell) :
    getCellMonitor (startCellMonitor env s cell).1 cell.id =
      some { token := s.nextToken, displayVisible := true } := by
  rw [startCellMonitor_state]
  unfold getCellMonitor
  exact lookupKey_setKey_self s.cellmonitors cell.id _

theorem startCellMonitor_create_mem (env : ListenerEnv) (s : SparkState) (cell : Cell) :
    Effect.createMonitor cell.id (startCellMonitor env s cell).2.1.token ∈
      (startCellMonitor env s cell).2.2 := by
  simp only [startCellMonitor]
  rw [startCellMonitorPre_state]
  exact List.mem_append_right _ (List.mem_singleton.mpr rfl)

theorem startCellMonitor_effects_existing (env : ListenerEnv) (s : SparkState) (cell : Cell)
    (m : CellMonitor) (h : getCellMonitor s cell.id = some m) :
    (startCellMonitor env s cell).2.2 =
      [Effect.removeDisplay m.token, Effect.createMonitor cell.id s.nextToken] := by
  simp only [startCellMonitor, startCellMonitorPre, h]
  rfl

theorem getCellMonitor_stopCellMonitor (s : SparkState) (id : String) :
    getCellMonitor (stopCellMonitor s id).1 id = none := by
  unfold stopCellMonitor
  cases h : getCellMonitor s id with
  | none => exact h
  | some m => exact lookupKey_eraseKey_self s.cellmonitors id

theorem handleMessage_hidden (env : ListenerEnv) (s : SparkState) (msg : CommMsg)
    (h : s.display_mode = DisplayMode.hidden) :
    handleMessage env s msg = Except.ok (s, []) := by
  unfold handleMessage
  rw [if_pos h]

/-! ### Lemmas about the job-start pipeline -/

theorem jobStartWatermark_fields (env : ListenerEnv) (s : SparkState) :
    (jobStartWatermark env s).2.cellmonitors = s.cellmonitors ∧
    (jobStartWatermark env s).2.data = s.data ∧
    (jobStartWatermark env s).2.app = s.app ∧
    (jobStartWatermark env s).2.display_mode = s.display_mode ∧
    (jobStartWatermark env s).2.nextToken = s.nextToken := by
  unfold jobStartWatermark
  dsimp only
  split
  · exact ⟨rfl, rfl, rfl, rfl, rfl⟩
  · exact ⟨rfl, rfl, rfl, rfl, rfl⟩

theorem jobStartMonitor_hidden (env : ListenerEnv) (s : SparkState) (cell : Cell) (b : Bool)
    (h : s.display_mode = DisplayMode.hidden) :
    jobStartMonitor env s cell b = (s, getCellMonitor s cell.id, []) := by
  unfold jobStartMonitor
  rw [if_neg]
  intro hc
  rw [h] at hc
  exact absurd hc.1 (by simp)

theorem jobStartMonitor_shown (env : ListenerEnv) (s : SparkState) (cell : Cell) (b : Bool)
    (h : s.display_mode = DisplayMode.shown) :
    ∃ m, (jobStartMonitor env s cell b).2.1 = some m ∧
      getCellMonitor (jobStartMonitor env s cell b).1 cell.id = some m := by
  unfold jobStartMonitor
  by_cases hc : getCellMonitor s cell.id = none ∨ b = true
  · rw [if_pos ⟨h, hc⟩]
    refine ⟨{ token := s.nextToken, displayVisible := true }, ?_, ?_⟩
    · rw [startCellMonitor_monitor]
    · exact getCellMonitor_startCellMonitor env s cell
  · rw [if_neg (fun hand => hc hand.2)]
    cases hm : getCellMonitor s cell.id with
    | none => exact absurd (Or.inl hm) hc
    | some m => exact ⟨m, rfl, rfl⟩

theorem jobStartMonitor_none_shown (env : ListenerEnv) (s : SparkState) (cell : Cell) (b : Bool)
    (h : s.display_mode = DisplayMode.shown) (hnone : getCellMonitor s cell.id = none) :
    jobStartMonitor env s cell b =
      ((startCellMonitor env s cell).1, some (startCellMonitor env s cell).2.1,
        (startCellMonitor env s cell).2.2) := by
  unfold jobStartMonitor
  rw [if_pos ⟨h, Or.inl hnone⟩]

theorem jobStartMonitor_fields (env : ListenerEnv) (s : SparkState) (cell : Cell) (b : Bool) :
    (jobStartMonitor env s cell b).1.data = s.data ∧
    (jobStartMonitor env s cell b).1.app = s.app := by
  unfold jobStartMonitor
  split
  · rw [startCellMonitor_state]
    exact ⟨rfl, rfl⟩
  · exact ⟨rfl, rfl⟩

theorem jobStartMonitor_cellmonitors (env : ListenerEnv) (s : SparkState) (cell : Cell)
    (b : Bool) :
    (jobStartMonitor env s cell b).1.cellmonitors = s.cellmonitors ∨
    ∃ m, (jobStartMonitor env s cell b).1.cellmonitors = setKey s.cellmonitors cell.id m := by
  unfold jobStartMonitor
  split
  · right
    rw [startCellMonitor_state]
    exact ⟨_, rfl⟩
  · left
    rfl

theorem getCellMonitor_congr (s1 s2 : SparkState) (id : String)
    (h : s1.cellmonitors = s2.cellmonitors) : getCellMonitor s1 id = getCellMonitor s2 id := by
  unfold getCellMonitor
  rw [h]

theorem jobStartBookkeeping_cellmonitors (s : SparkState) (d : JobStartData) (cid : String) :
    (jobStartBookkeeping s d cid).cellmonitors = s.cellmonitors :=
  rfl

theorem jobStartBookkeeping_app (s : SparkState) (d : JobStartData) (cid : String) :
    (jobStartBookkeeping s d cid).app = s.app :=
  rfl

theorem jobStartBookkeeping_data (s : SparkState) (d : JobStartData) (cid : String) :
    (jobStartBookkeeping s d cid).data = setKey s.data (jobKey s.app d.jobId) cid :=
  rfl

theorem jobStartBookkeeping_display (s : SparkState) (d : JobStartData) (cid : String) :
    (jobStartBookkeeping s d cid).display_mode = s.display_mode :=
  rfl

/-- The cell bound at line 192/193: the active cell, its id replaced by
a fresh uuid when empty.  Structure eta makes it literally the cell with
the resolved id. -/
theorem jobStart_cell_eq (env : ListenerEnv) (c0 : Cell) :
    (if c0.id = "" then ({ id := env.freshId } : Cell) else c0) =
      { id := if c0.id = "" then env.freshId else c0.id } := by
  by_cases h : c0.id = "" <;> simp [h]

/-- What `onSparkJobStart` guarantees when an active cell exists and the
display mode is shown: the JobRecord entry is written for the resolved
cell id, a monitor for that id exists afterwards, and the job-start
event is forwarded to exactly that monitor. -/
theorem onSparkJobStart_shown_spec (env : ListenerEnv) (s : SparkState) (d : JobStartData)
    (c0 : Cell) (hact : env.activeCell = some c0)
    (hshown : s.display_mode = DisplayMode.shown) :
    ∃ s1 effs m,
      onSparkJobStart env s d = Except.ok (s1, effs) ∧
      s1.app = s.app ∧
      lookupKey s1.data (jobKey s.app d.jobId) =
        some (if c0.id = "" then env.freshId else c0.id) ∧
      getCellMonitor s1 (if c0.id = "" then env.freshId else c0.id) = some m ∧
      Effect.forwardJobStart m.token d.jobId ∈ effs := by
  obtain ⟨hwc, hwd, hwa, hwm, hwt⟩ := jobStartWatermark_fields env s
  obtain ⟨m, hm1, hm2⟩ :=
    jobStartMonitor_shown env (jobStartWatermark env s).2
      { id := if c0.id = "" then env.freshId else c0.id } (jobStartWatermark env s).1
      (by rw [hwm, hshown])
  obtain ⟨hrd, hra⟩ :=
    jobStartMonitor_fields env (jobStartWatermark env s).2
      { id := if c0.id = "" then env.freshId else c0.id } (jobStartWatermark env s).1
  simp only [onSparkJobStart, hact, jobStart_cell_eq]
  refine ⟨_, _, m, rfl, ?_, ?_, ?_, ?_⟩
  · rw [jobStartBookkeeping_app, hra, hwa]
  · rw [jobStartBookkeeping_data, hra, hwa]
    exact lookupKey_setKey_self _ _ _
  · rw [getCellMonitor_congr _ _ _ (jobStartBookkeeping_cellmonitors _ _ _)]
    exact hm2
  · rw [hm1]
    exact List.mem_append_right _ (List.mem_singleton.mpr rfl)

/-- What `onSparkJobStart` does when an active cell exists and the
display mode is hidden: the bookkeeping happens (JobRecord entry,
totalCores, numExecutors), the monitor map is untouched, and no
create-monitor effect is emitted. -/
theorem onSparkJobStart_hidden_spec (env : ListenerEnv) (s : SparkState) (d : JobStartData)
    (c0 : Cell) (hact : env.activeCell = some c0)
    (hh : s.display_mode = DisplayMode.hidden) :
    ∃ s2 effs,
      onSparkJobStart env s d = Except.ok (s2, effs) ∧
      s2.cellmonitors = s.cellmonitors ∧
      s2.display_mode = s.display_mode ∧
      s2.totalCores = d.totalCores ∧
      s2.numExecutors = d.numExecutors ∧
      lookupKey s2.data (jobKey s.app d.jobId) =
        some (if c0.id = "" then env.freshId else c0.id) ∧
      ∀ i t, Effect.createMonitor i t ∉ effs := by
  obtain ⟨hwc, hwd, hwa, hwm, hwt⟩ := jobStartWatermark_fields env s
  have hmon :=
    jobStartMonitor_hidden env (jobStartWatermark env s).2
      { id := if c0.id = "" then env.freshId else c0.id } (jobStartWatermark env s).1
      (by rw [hwm, hh])
  simp only [onSparkJobStart, hact, jobStart_cell_eq, hmon]
  refine ⟨_, _, rfl, ?_, ?_, rfl, rfl, ?_, ?_⟩
  · rw [jobStartBookkeeping_cellmonitors, hwc]
  · rw [jobStartBookkeeping_display, hwm]
  · rw [jobStartBookkeeping_data, hwa]
    exact lookupKey_setKey_self _ _ _
  · intro i t
    cases getCellMonitor (jobStartWatermark env s).2
        (if c0.id = "" then env.freshId else c0.id) with
    | some m => simp
    | none => simp

/-- What `onSparkJobStart` does when an active cell exists, the display
mode is shown and no monitor yet exists for the resolved cell id: a
monitor is created for it (exactly the one found afterwards). -/
theorem onSparkJobStart_creates (env : ListenerEnv) (s : SparkState) (d : JobStartData)
    (c0 : Cell) (hact : env.activeCell = some c0)
    (hshown : s.display_mode = DisplayMode.shown)
    (hnone : getCellMonitor s (if c0.id = "" then env.freshId else c0.id) = none) :
    ∃ s2 effs m,
      onSparkJobStart env s d = Except.ok (s2, effs) ∧
      getCellMonitor s2 (if c0.id = "" then env.freshId else c0.id) = some m ∧
      Effect.createMonitor (if c0.id = "" then env.freshId else c0.id) m.token ∈ effs := by
  obtain ⟨hwc, hwd, hwa, hwm, hwt⟩ := jobStartWatermark_fields env s
  have hnone2 : getCellMonitor (jobStartWatermark env s).2
      (if c0.id = "" then env.freshId else c0.id) = none := by
    rw [getCellMonitor_congr _ s _ hwc]
    exact hnone
  have hmon :=
    jobStartMonitor_none_shown env (jobStartWatermark env s).2
      { id := if c0.id = "" then env.freshId else c0.id } (jobStartWatermark env s).1
      (by rw [hwm, hshown]) hnone2
  simp only [onSparkJobStart, hact, jobStart_cell_eq, hmon]
  refine ⟨_, _,
    (startCellMonitor env (jobStartWatermark env s).2
      { id := if c0.id = "" then env.freshId else c0.id }).2.1, rfl, ?_, ?_⟩
  · rw [getCellMonitor_congr _ _ _ (jobStartBookkeeping_cellmonitors _ _ _),
      startCellMonitor_monitor]
    exact getCellMonitor_startCellMonitor env (jobStartWatermark env s).2
      { id := if c0.id = "" then env.freshId else c0.id }
  · exact List.mem_append_left _
      (List.mem_append_right _
        (startCellMonitor_create_mem env (jobStartWatermark env s).2
          { id := if c0.id = "" then env.freshId else c0.id }))

/-- `onSparkJobEnd` at a state holding a JobRecord entry with a truthy
cell id whose monitor exists: the state is returned untouched and the
event is forwarded to that monitor. -/
theorem onSparkJobEnd_found (s : SparkState) (j : Nat) (cid : String) (m : CellMonitor)
    (hdata : lookupKey s.data (jobKey s.app j) = some cid) (hcid : cid ≠ "")
    (hmon : getCellMonitor s cid = some m) :
    onSparkJobEnd s j =
      Except.ok (s, [Effect.log ("SparkMonitor: Job End at cell: " ++ cid),
        Effect.forwardJobEnd m.token j]) := by
  simp only [onSparkJobEnd, hdata]
  rw [if_neg hcid, hmon]
  rfl

/-! ### Claims -/

/-- Claim C1 names a behavior the code does not have: on a job-end event
whose jobId has no JobRecord entry, line 227 dereferences `cell_id` on
an undefined record, so a TypeError escapes the handler instead of the
claimed logged error.  This theorem evaluates the handler at the failing
input (fresh engine, job end for jobId 99 with no prior job start). -/
theorem jobEnd_unknown_job_throws :
    onSparkJobEnd initialState 99 =
      Except.error (JsError.typeError "Cannot read properties of undefined (reading cell_id)") :=
  rfl

/-- Claim C2 names a behavior the code does not have: on a job-start
event with no active cell, line 192 reads `cell.id` before the null
guard at line 195, so a TypeError escapes instead of the claimed logged
error plus return.  This theorem evaluates the handler at the failing
input (fresh engine, job start while the active-cell lookup gives null). -/
theorem jobStart_no_cell_throws :
    onSparkJobStart envNoCell initialState jobData0 =
      Except.error (JsError.typeError "Cannot read properties of null (reading id)") :=
  rfl

/-- Claim C3 names a behavior the code does not have: on stage-completed,
task-start and task-end events whose stageId has no StageRecord entry,
lines 260, 272 and 284 dereference `cell_id` on an undefined record, so
a TypeError escapes each handler instead of the claimed logged error.
This theorem evaluates the three handlers at the failing input (fresh
engine, stageId 7 with no prior stage-submitted record). -/
theorem stage_task_unknown_stage_throws :
    onSparkStageCompleted initialState 7 =
      Except.error (JsError.typeError "Cannot read properties of undefined (reading cell_id)") ∧
    onSparkTaskStart initialState 7 =
      Except.error (JsError.typeError "Cannot read properties of undefined (reading cell_id)") ∧
    onSparkTaskEnd initialState 7 =
      Except.error (JsError.typeError "Cannot read properties of undefined (reading cell_id)") :=
  ⟨rfl, rfl, rfl⟩

/-- Claim C8: `stopCellMonitor` is idempotent — a second call right
after a first is a no-op on the state and emits nothing, and stopping an
id with no monitor leaves the state untouched and emits nothing. -/
theorem stopCellMonitor_idem (s : SparkState) (id : String) :
    stopCellMonitor (stopCellMonitor s id).1 id = ((stopCellMonitor s id).1, []) ∧
    (getCellMonitor s id = none → stopCellMonitor s id = (s, [])) := by
  constructor
  · cases h : getCellMonitor s id with
    | none =>
      have h1 : stopCellMonitor s id = (s, []) := by unfold stopCellMonitor; rw [h]
      rw [h1]
      unfold stopCellMonitor
      rw [h]
    | some m =>
      have h1 : (stopCellMonitor s id).1 =
          { s with cellmonitors := eraseKey s.cellmonitors id } := by
        unfold stopCellMonitor; rw [h]
      rw [h1]
      unfold stopCellMonitor
      have h2 : getCellMonitor { s with cellmonitors := eraseKey s.cellmonitors id } id = none := by
        unfold getCellMonitor
        exact lookupKey_eraseKey_self s.cellmonitors id
      rw [h2]
  · intro h
    unfold stopCellMonitor
    rw [h]

/-- Witness for claim C8: idempotence at a state holding a monitor for
"c1", and the no-op at the fresh state with no monitor. -/
theorem stopCellMonitor_idem_witness :
    stopCellMonitor (stopCellMonitor oneMonitorState "c1").1 "c1" =
      ((stopCellMonitor oneMonitorState "c1").1, []) ∧
    stopCellMonitor initialState "c1" = (initialState, []) :=
  ⟨(stopCellMonitor_idem oneMonitorState "c1").1,
   (stopCellMonitor_idem initialState "c1").2 rfl⟩

/-- Claim C9: an executor-added event carrying totalCores n sets
totalCores to n and increments numExecutors by exactly one, for every
listener state (active cell or not, monitor or not); forwarding is
best-effort on top of those updates. -/
theorem executorAdded_updates_session (env : ListenerEnv) (s : SparkState) (n : Int) :
    (onSparkExecutorAdded env s n).1.totalCores = n ∧
    (onSparkExecutorAdded env s n).1.numExecutors = s.numExecutors + 1 ∧
    ((onSparkExecutorAdded env s n).2 = [] ∨
      ∃ t, (onSparkExecutorAdded env s n).2 = [Effect.forwardExecutorAdded t]) := by
  refine ⟨rfl, rfl, ?_⟩
  cases hc : env.activeCell with
  | none =>
    left
    show executorForward env _ Effect.forwardExecutorAdded = []
    unfold executorForward
    rw [hc]
  | some cell =>
    cases h : getCellMonitor
        { s with totalCores := n, numExecutors := s.numExecutors + 1 } cell.id with
    | none =>
      left
      show executorForward env _ Effect.forwardExecutorAdded = []
      unfold executorForward
      rw [hc]
      show (match getCellMonitor
          { s with totalCores := n, numExecutors := s.numExecutors + 1 } cell.id with
        | some m => [Effect.forwardExecutorAdded m.token]
        | none => ([] : List Effect)) = []
      rw [h]
    | some m =>
      right
      refine ⟨m.token, ?_⟩
      show executorForward env _ Effect.forwardExecutorAdded = _
      unfold executorForward
      rw [hc]
      show (match getCellMonitor
          { s with totalCores := n, numExecutors := s.numExecutors + 1 } cell.id with
        | some m => [Effect.forwardExecutorAdded m.token]
        | none => ([] : List Effect)) = [Effect.forwardExecutorAdded m.token]
      rw [h]

/-- Claim C10: every executor-removed event decrements numExecutors by
exactly one with no lower bound, so a single executor-removed message
right after construction drives numExecutors below zero. -/
theorem executorRemoved_no_lower_bound :
    (∀ (env : ListenerEnv) (s : SparkState) (n : Int),
      (onSparkExecutorRemoved env s n).1.numExecutors = s.numExecutors - 1) ∧
    (runState [EngineEvent.message envC1
        { msgtype := some "fromscala", payload := SparkMsg.sparkExecutorRemoved 0 }]
      initialState).numExecutors < 0 := by
  constructor
  · intro env s n
    rfl
  · decide

/-- Counterexample for claim C4: the job start for jobId 0 forwards to
the monitor with token 0, but after an intervening re-run job start for
jobId 1 (which replaces the monitor of cell "c1" by the one with token
1), the later job end for jobId 0 is forwarded to token 1 — not to the
monitor that received the job start — although the appInstance stayed
"app1_1" and the JobRecord entry still maps jobId 0 to "c1". -/
theorem jobStart_jobEnd_same_monitor_cex :
    Effect.forwardJobStart 0 0 ∈ okEffects (onSparkJobStart envC1 scenarioAState jobData0) ∧
    okEffects (onSparkJobEnd cexS2 0) =
      [Effect.log "SparkMonitor: Job End at cell: c1", Effect.forwardJobEnd 1 0] ∧
    Effect.forwardJobEnd 0 0 ∉ okEffects (onSparkJobEnd cexS2 0) ∧
    lookupKey cexS2.data (jobKey "app1_1" 0) = some "c1" := by
  decide

/-- Claim C4 as amended: the appInstance is computed as
appId_appAttemptId by application start; under a stable appInstance a
job start with an active cell (display shown, uuids non-empty) records
JobRecord[(appInstance, jobId)] = the resolved cell id and forwards to
the monitor registered for that cell, and a job end with the same jobId
that follows with no intervening events is forwarded to that very
monitor (in general the job end goes to whichever monitor is currently
registered for the recorded cell id); the job end leaves the state —
the JobRecord entry included — unchanged. -/
theorem jobStart_jobEnd_same_monitor (env : ListenerEnv) (s : SparkState) (d : JobStartData)
    (c0 : Cell) (hact : env.activeCell = some c0)
    (hshown : s.display_mode = DisplayMode.shown) (hfresh : env.freshId ≠ "") :
    (∀ (s0 : SparkState) (a : AppStartData),
        (onSparkApplicationStart s0 a).app = a.appId ++ "_" ++ a.appAttemptId) ∧
    jobStartEndCoherent env s d c0 := by
  refine ⟨fun s0 a => rfl, ?_⟩
  obtain ⟨s1, effs, m, hok, happ, hdata, hmon, hmem⟩ :=
    onSparkJobStart_shown_spec env s d c0 hact hshown
  have hcid : (if c0.id = "" then env.freshId else c0.id) ≠ "" := by
    by_cases h : c0.id = ""
    · rw [if_pos h]
      exact hfresh
    · rw [if_neg h]
      exact h
  refine ⟨s1, effs, m, hok, hdata, hmon, hmem, ?_⟩
  have hdata1 : lookupKey s1.data (jobKey s1.app d.jobId) =
      some (if c0.id = "" then env.freshId else c0.id) := by
    rw [happ]
    exact hdata
  exact onSparkJobEnd_found s1 d.jobId _ m hdata1 hcid hmon

/-- Witness for claim C4: Scenario A — appInstance "app1_1", job start
with jobId 0 at active cell "c1", then job end with jobId 0. -/
theorem jobStart_jobEnd_same_monitor_witness :
    scenarioAState.app = "app1_1" ∧
    ((∀ (s0 : SparkState) (a : AppStartData),
        (onSparkApplicationStart s0 a).app = a.appId ++ "_" ++ a.appAttemptId) ∧
      jobStartEndCoherent envC1 scenarioAState jobData0 { id := "c1" }) :=
  ⟨rfl, jobStart_jobEnd_same_monitor envC1 scenarioAState jobData0 { id := "c1" }
    rfl rfl (by decide)⟩

/-- Counterexample for claim C5: with the display hidden, a job-start
event arriving through handleMessage performs NO bookkeeping at all —
the state comes back untouched (totalCores stays 0 instead of becoming
16, and no JobRecord entry is written for jobId 0), contradicting the
claim that the bookkeeping happens before the event is dropped. -/
theorem hidden_jobStart_bookkeeping_cex :
    handleMessage envC1 hiddenState jobStartMsg16 = Except.ok (hiddenState, []) ∧
    hiddenState.totalCores = 0 ∧
    lookupKey hiddenState.data (jobKey hiddenState.app 0) = none :=
  ⟨rfl, rfl, rfl⟩

/-- Claim C5 as amended: while the display mode is hidden, a job-start
event arriving through handleMessage is dropped entirely — no JobRecord
entry, no totalCores/numExecutors update, no monitor; the
bookkeeping-without-monitor behavior belongs to onSparkJobStart itself
when invoked while hidden. -/
theorem hidden_jobStart_dropped (env : ListenerEnv) (s : SparkState) (msg : CommMsg)
    (d : JobStartData) (c0 : Cell) (hh : s.display_mode = DisplayMode.hidden)
    (hact : env.activeCell = some c0) :
    hiddenJobStartBehavior env s msg d c0 := by
  refine ⟨handleMessage_hidden env s msg hh, ?_⟩
  obtain ⟨s2, effs, hok, hcm, hdm, htc, hne, hlk, hnc⟩ :=
    onSparkJobStart_hidden_spec env s d c0 hact hh
  exact ⟨s2, effs, hok, hcm, htc, hne, hlk, hnc⟩

/-- Witness for the amended claim C5, at the counterexample input. -/
theorem hidden_jobStart_dropped_witness :
    hiddenState.display_mode = DisplayMode.hidden ∧
    hiddenJobStartBehavior envC1 hiddenState jobStartMsg16 jobData16 { id := "c1" } :=
  ⟨rfl, hidden_jobStart_dropped envC1 hiddenState jobStartMsg16 jobData16
    { id := "c1" } rfl rfl⟩

/-- Claim C6: while hidden no message creates a monitor (handleMessage
drops everything; even a directly invoked job start leaves the monitor
map untouched and emits no create, whatever the re-run state); showAll
only flips the mode flag, resurrecting nothing; and only a job start
processed after showAll creates the monitor. -/
theorem hidden_then_showAll_lifecycle :
    (∀ (env : ListenerEnv) (s : SparkState) (msg : CommMsg),
        s.display_mode = DisplayMode.hidden →
        handleMessage env s msg = Except.ok (s, [])) ∧
    (∀ (env : ListenerEnv) (s : SparkState) (d : JobStartData) (s2 : SparkState)
        (effs : List Effect),
        s.display_mode = DisplayMode.hidden →
        onSparkJobStart env s d = Except.ok (s2, effs) →
        s2.cellmonitors = s.cellmonitors ∧ ∀ i t, Effect.createMonitor i t ∉ effs) ∧
    (∀ s : SparkState,
        (showAll s).display_mode = DisplayMode.shown ∧
        (showAll s).cellmonitors = s.cellmonitors ∧
        (showAll s).data = s.data ∧
        (showAll s).nextToken = s.nextToken ∧
        (showAll s).totalCores = s.totalCores ∧
        (showAll s).numExecutors = s.numExecutors) ∧
    (∀ (env : ListenerEnv) (s : SparkState) (d : JobStartData) (c0 : Cell),
        env.activeCell = some c0 →
        getCellMonitor s (if c0.id = "" then env.freshId else c0.id) = none →
        jobStartAfterShowAllCreates env s d c0) := by
  refine ⟨handleMessage_hidden, ?_, fun s => ⟨rfl, rfl, rfl, rfl, rfl, rfl⟩, ?_⟩
  · intro env s d s2 effs hh hok
    cases hcell : env.activeCell with
    | none => exact absurd hok (by simp [onSparkJobStart, hcell])
    | some c0 =>
      obtain ⟨s2x, effsx, hok2, hcm, hdm, htc, hne, hlk, hnc⟩ :=
        onSparkJobStart_hidden_spec env s d c0 hcell hh
      rw [hok2] at hok
      injection hok with hpair
      injection hpair with hs he
      subst hs
      subst he
      exact ⟨hcm, hnc⟩
  · intro env s d c0 hact hnone
    have h2 : getCellMonitor (showAll s) (if c0.id = "" then env.freshId else c0.id) = none := by
      rw [getCellMonitor_congr (showAll s) s _ rfl]
      exact hnone
    exact onSparkJobStart_creates env (showAll s) d c0 hact rfl h2

/-- Witness for claim C6: Scenario C — hideAll, a job-start message
(dropped), showAll (nothing resurrected), then a job start that creates
the monitor for cell "c1". -/
theorem hidden_then_showAll_lifecycle_witness :
    handleMessage envC1 hiddenState jobStartMsg16 = Except.ok (hiddenState, []) ∧
    (showAll hiddenState).display_mode = DisplayMode.shown ∧
    jobStartAfterShowAllCreates envC1 hiddenState jobData16 { id := "c1" } :=
  ⟨hidden_then_showAll_lifecycle.1 envC1 hiddenState jobStartMsg16 rfl,
   (hidden_then_showAll_lifecycle.2.2.1 hiddenState).1,
   hidden_then_showAll_lifecycle.2.2.2 envC1 hiddenState jobData16 { id := "c1" } rfl rfl⟩

theorem count_le_one_of_nodup {α : Type} (l : List (String × α))
    (h : (mapKeys l).Nodup) (id : String) :
    (l.filter (fun p => p.1 = id)).length ≤ 1 := by
  induction l with
  | nil => simp
  | cons p t ih =>
    simp only [mapKeys, List.map_cons, List.nodup_cons] at h
    obtain ⟨hp, ht⟩ := h
    by_cases hid : p.1 = id
    · have hnil : t.filter (fun q => q.1 = id) = [] := by
        refine List.filter_eq_nil_iff.mpr ?_
        intro q hq
        simp only [decide_eq_true_eq]
        intro hq1
        exact hp (List.mem_map.mpr ⟨q, hq, by rw [hq1, hid]⟩)
      simp [List.filter_cons, hid, hnil]
    · simp only [List.filter_cons, hid, decide_False, if_false]
      exact ih ht

theorem onSparkJobEnd_ok_state (s : SparkState) (j : Nat) (r : SparkState × List Effect)
    (h : onSparkJobEnd s j = Except.ok r) : r.1 = s := by
  unfold onSparkJobEnd at h
  split at h
  · exact Except.noConfusion h
  · split at h
    · injection h with h2
      subst h2
      rfl
    · split at h
      · injection h with h2
        subst h2
        rfl
      · injection h with h2
        subst h2
        rfl

theorem onSparkStageCompleted_ok_state (s : SparkState) (st : Nat)
    (r : SparkState × List Effect) (h : onSparkStageCompleted s st = Except.ok r) : r.1 = s := by
  unfold onSparkStageCompleted at h
  split at h
  · exact Except.noConfusion h
  · split at h
    · injection h with h2
      subst h2
      rfl
    · split at h
      · injection h with h2
        subst h2
        rfl
      · injection h with h2
        subst h2
        rfl

theorem onSparkTaskStart_ok_state (s : SparkState) (st : Nat)
    (r : SparkState × List Effect) (h : onSparkTaskStart s st = Except.ok r) : r.1 = s := by
  unfold onSparkTaskStart at h
  split at h
  · exact Except.noConfusion h
  · split at h
    · injection h with h2
      subst h2
      rfl
    · split at h
      · injection h with h2
        subst h2
        rfl
      · injection h with h2
        subst h2
        rfl

theorem onSparkTaskEnd_ok_state (s : SparkState) (st : Nat)
    (r : SparkState × List Effect) (h : onSparkTaskEnd s st = Except.ok r) : r.1 = s := by
  unfold onSparkTaskEnd at h
  split at h
  · exact Except.noConfusion h
  · split at h
    · injection h with h2
      subst h2
      rfl
    · split at h
      · injection h with h2
        subst h2
        rfl
      · injection h with h2
        subst h2
        rfl

theorem onSparkStageSubmitted_cellmonitors (env : ListenerEnv) (s : SparkState) (st : Nat) :
    (onSparkStageSubmitted env s st).1.cellmonitors = s.cellmonitors := by
  unfold onSparkStageSubmitted
  cases env.activeCell with
  | none => rfl
  | some cell => rfl

theorem onSparkJobStart_ok_cellmonitors (env : ListenerEnv) (s : SparkState)
    (d : JobStartData) (r : SparkState × List Effect)
    (h : onSparkJobStart env s d = Except.ok r) :
    r.1.cellmonitors = s.cellmonitors ∨
    ∃ id m, r.1.cellmonitors = setKey s.cellmonitors id m := by
  obtain ⟨hwc, hwd, hwa, hwm, hwt⟩ := jobStartWatermark_fields env s
  cases hact : env.activeCell with
  | none => exact absurd h (by simp [onSparkJobStart, hact])
  | some c0 =>
    simp only [onSparkJobStart, hact, jobStart_cell_eq] at h
    injection h with h2
    subst h2
    rw [jobStartBookkeeping_cellmonitors]
    rcases jobStartMonitor_cellmonitors env (jobStartWatermark env s).2
        { id := if c0.id = "" then env.freshId else c0.id } (jobStartWatermark env s).1 with
      hc | ⟨m, hc⟩
    · left
      rw [hc, hwc]
    · right
      rw [hc, hwc]
      exact ⟨_, m, rfl⟩

theorem handleMessage_ok_cellmonitors (env : ListenerEnv) (s : SparkState) (msg : CommMsg)
    (r : SparkState × List Effect) (h : handleMessage env s msg = Except.ok r) :
    r.1.cellmonitors = s.cellmonitors ∨
    ∃ id m, r.1.cellmonitors = setKey s.cellmonitors id m := by
  simp only [handleMessage] at h
  split at h
  · injection h with h2
    subst h2
    left
    rfl
  · split at h
    · cases hp : msg.payload with
      | sparkJobStart d =>
        simp only [hp] at h
        cases hj : onSparkJobStart env s d with
        | error e =>
          rw [hj] at h
          exact Except.noConfusion h
        | ok p =>
          rw [hj] at h
          injection h with h2
          subst h2
          exact onSparkJobStart_ok_cellmonitors env s d p hj
      | sparkJobEnd j =>
        simp only [hp] at h
        cases hj : onSparkJobEnd s j with
        | error e =>
          rw [hj] at h
          exact Except.noConfusion h
        | ok p =>
          rw [hj] at h
          injection h with h2
          subst h2
          left
          rw [show p.1 = s from onSparkJobEnd_ok_state s j p hj]
      | sparkStageSubmitted st =>
        simp only [hp] at h
        injection h with h2
        subst h2
        left
        exact onSparkStageSubmitted_cellmonitors env s st
      | sparkStageCompleted st =>
        simp only [hp] at h
        cases hj : onSparkStageCompleted s st with
        | error e =>
          rw [hj] at h
          exact Except.noConfusion h
        | ok p =>
          rw [hj] at h
          injection h with h2
          subst h2
          left
          rw [show p.1 = s from onSparkStageCompleted_ok_state s st p hj]
      | sparkTaskStart st =>
        simp only [hp] at h
        cases hj : onSparkTaskStart s st with
        | error e =>
          rw [hj] at h
          exact Except.noConfusion h
        | ok p =>
          rw [hj] at h
          injection h with h2
          subst h2
          left
          rw [show p.1 = s from onSparkTaskStart_ok_state s st p hj]
      | sparkTaskEnd st =>
        simp only [hp] at h
        cases hj : onSparkTaskEnd s st with
        | error e =>
          rw [hj] at h
          exact Except.noConfusion h
        | ok p =>
          rw [hj] at h
          injection h with h2
          subst h2
          left
          rw [show p.1 = s from onSparkTaskEnd_ok_state s st p hj]
      | sparkApplicationStart d =>
        simp only [hp] at h
        injection h with h2
        subst h2
        left
        rfl
      | sparkApplicationEnd =>
        simp only [hp] at h
        injection h with h2
        subst h2
        left
        rfl
      | sparkExecutorAdded n =>
        simp only [hp] at h
        injection h with h2
        subst h2
        left
        rfl
      | sparkExecutorRemoved n =>
        simp only [hp] at h
        injection h with h2
        subst h2
        left
        rfl
      | unknownTag tag =>
        simp only [hp] at h
        injection h with h2
        subst h2
        left
        rfl
    · injection h with h2
      subst h2
      left
      rfl

theorem mapKeys_valueMap {α : Type} (l : List (String × α)) (f : String × α → α) :
    mapKeys (l.map (fun p => (p.1, f p))) = mapKeys l := by
  unfold mapKeys
  rw [List.map_map]
  rfl

theorem hideAll_cellmonitors (s : SparkState) :
    (hideAll s).1.cellmonitors =
      s.cellmonitors.map (fun p => (p.1, { p.2 with displayVisible := false })) :=
  rfl

theorem onCellRemoved_cellmonitors (s : SparkState) (id : String) :
    (onCellRemoved s id).1.cellmonitors = s.cellmonitors ∨
    (onCellRemoved s id).1.cellmonitors = eraseKey s.cellmonitors id := by
  unfold onCellRemoved
  cases h : getCellMonitor s id with
  | none =>
    left
    rfl
  | some m =>
    right
    simp only [stopCellMonitor, h]

theorem stopCellMonitor_cellmonitors (s : SparkState) (id : String) :
    (stopCellMonitor s id).1.cellmonitors = s.cellmonitors ∨
    (stopCellMonitor s id).1.cellmonitors = eraseKey s.cellmonitors id := by
  unfold stopCellMonitor
  cases h : getCellMonitor s id with
  | none =>
    left
    rfl
  | some m =>
    right
    rfl

theorem toggleAll_cellmonitors (s : SparkState) :
    (toggleAll s).1.cellmonitors = s.cellmonitors ∨
    (toggleAll s).1.cellmonitors =
      s.cellmonitors.map (fun p => (p.1, { p.2 with displayVisible := false })) := by
  unfold toggleAll
  by_cases h1 : s.display_mode = DisplayMode.hidden
  · rw [if_pos h1]
    left
    rfl
  · rw [if_neg h1]
    by_cases h2 : s.display_mode = DisplayMode.shown
    · rw [if_pos h2]
      right
      rfl
    · rw [if_neg h2]
      left
      rfl

theorem stepState_message (env : ListenerEnv) (msg : CommMsg) (s : SparkState) :
    stepState (EngineEvent.message env msg) s =
      (match handleMessage env s msg with
       | Except.ok r => r.1
       | Except.error _ => s) :=
  rfl

theorem nodup_keys_stepState (ev : EngineEvent) (s : SparkState)
    (h : (mapKeys s.cellmonitors).Nodup) :
    (mapKeys (stepState ev s).cellmonitors).Nodup := by
  cases ev with
  | message env msg =>
    rw [stepState_message]
    cases hr : handleMessage env s msg with
    | error e => exact h
    | ok r =>
      rcases handleMessage_ok_cellmonitors env s msg r hr with hc | ⟨id, m, hc⟩
      · show (mapKeys r.1.cellmonitors).Nodup
        rw [hc]
        exact h
      · show (mapKeys r.1.cellmonitors).Nodup
        rw [hc]
        exact nodup_mapKeys_setKey _ h id m
  | uiToggleAll =>
    show (mapKeys (toggleAll s).1.cellmonitors).Nodup
    rcases toggleAll_cellmonitors s with hc | hc
    · rw [hc]
      exact h
    · rw [hc, mapKeys_valueMap]
      exact h
  | uiShowAll => exact h
  | uiHideAll =>
    show (mapKeys (hideAll s).1.cellmonitors).Nodup
    rw [hideAll_cellmonitors, mapKeys_valueMap]
    exact h
  | cellRemoved id =>
    show (mapKeys (onCellRemoved s id).1.cellmonitors).Nodup
    rcases onCellRemoved_cellmonitors s id with hc | hc
    · rw [hc]
      exact h
    · rw [hc]
      exact nodup_mapKeys_eraseKey _ h id

theorem nodup_keys_runState (evs : List EngineEvent) (s : SparkState)
    (h : (mapKeys s.cellmonitors).Nodup) :
    (mapKeys (runState evs s).cellmonitors).Nodup := by
  induction evs generalizing s with
  | nil => exact h
  | cons ev t ih => exact ih (stepState ev s) (nodup_keys_stepState ev s h)

/-- Claim C7: in every state reachable from construction, at most one
live monitor is stored per command id; a re-run style
restart of a monitor that already exists performs exactly one display
retirement followed by exactly one creation; and looking a monitor up
right after its eviction yields absent. -/
theorem at_most_one_monitor_per_id :
    (∀ (evs : List EngineEvent) (id : String),
        liveMonitorCount (runState evs initialState) id ≤ 1) ∧
    (∀ (env : ListenerEnv) (s : SparkState) (cell : Cell) (m : CellMonitor),
        getCellMonitor s cell.id = some m →
        (startCellMonitor env s cell).2.2 =
          [Effect.removeDisplay m.token, Effect.createMonitor cell.id s.nextToken]) ∧
    (∀ (s : SparkState) (id : String), getCellMonitor (stopCellMonitor s id).1 id = none) := by
  refine ⟨?_, startCellMonitor_effects_existing, getCellMonitor_stopCellMonitor⟩
  intro evs id
  exact count_le_one_of_nodup _ (nodup_keys_runState evs initialState List.nodup_nil) id

/-- Witness for claim C7: the Scenario C event list reaches a state
with one monitor for "c1"; restarting the monitor of "c1" in a state
that already holds one (token 5) retires that display once and creates
once; eviction then lookup yields absent. -/
theorem at_most_one_monitor_per_id_witness :
    liveMonitorCount (runState [EngineEvent.uiHideAll,
      EngineEvent.message envC1 jobStartMsg16, EngineEvent.uiShowAll,
      EngineEvent.message envC1 jobStartMsg16] initialState) "c1" ≤ 1 ∧
    (startCellMonitor envC1 oneMonitorState { id := "c1" }).2.2 =
      [Effect.removeDisplay 5, Effect.createMonitor "c1" oneMonitorState.nextToken] ∧
    getCellMonitor (stopCellMonitor oneMonitorState "c1").1 "c1" = none :=
  ⟨at_most_one_monitor_per_id.1 [EngineEvent.uiHideAll,
      EngineEvent.message envC1 jobStartMsg16, EngineEvent.uiShowAll,
      EngineEvent.message envC1 jobStartMsg16] "c1",
   at_most_one_monitor_per_id.2.1 envC1 oneMonitorState { id := "c1" }
     { token := 5, displayVisible := true } rfl,
   at_most_one_monitor_per_id.2.2 oneMonitorState "c1"⟩

end SparkVerify
